import Mathlib

/-
Verification of the PhantomLinkedin polling/launch control loop.

The repository contains two variants of the same Streamlit application:
  - src/unnamed/part_000 : module-level functions get_phantom_status,
    launch_phantom and automation_loop plus button handlers over
    st.session_state (fields is_running, stop_flag, activations_done, logs);
  - src/app.py : class PhantomController with check_status, launch_phantom,
    start_automation (inner run_automation loop) and stop_automation.

Both loops are embedded below as explicit step machines; the network is an
environment parameter (one HttpResult per call), time is counted as the
seconds spent in time.sleep, and the concurrent UI thread of part_000 is a
separate kind of event interleaved between loop steps.
-/

namespace Phantom

/-- JSON values as produced by the Python json module. A stored jnull reads
back as the Python value None. -/
inductive Json where
  | obj (fields : List (String × Json))
  | arr (elems : List Json)
  | jstr (s : String)
  | jnum (n : Int)
  | jnull

/-- Python exceptions that the embedded code can raise or catch. -/
inductive PyExn where
  | attributeError
  | requestException (msg : String)
deriving DecidableEq

/-- The body of an HTTP response: either JSON-decodable or not.
With the requests library, r.json() on a non-decodable body raises
JSONDecodeError, which is a subclass of RequestException. -/
inductive Body where
  | jsonBody (v : Json)
  | rawBody (text : String)

/-- Outcome of one HTTP call made by the code: a transport failure
(requests.RequestException: connection error, timeout, ...) or a response
with a status code, a body, and the raw text r.text. -/
inductive HttpResult where
  | transportError (msg : String)
  | response (status_code : Nat) (body : Body) (text : String)

/-- lookup of a key in the field list of a JSON object (Python dict). -/
def lookupField : List (String × Json) → String → Option Json
  | [], _ => none
  | (k, v) :: rest, key => if k = key then some v else lookupField rest key

/-- Python: value == "running" style comparison of a decoded JSON value with
a string literal. Only a string with the same characters compares equal. -/
def jsonIsStr (j : Json) (t : String) : Bool :=
  match j with
  | .jstr s => s = t
  | _ => false

/-- Python str() of a decoded JSON value, as interpolated into f-strings of
the log messages (container values abbreviated, display-only). -/
def pyStr : Json → String
  | .jstr s => s
  | .jnum n => toString n
  | .jnull => "None"
  | .obj _ => "<dict>"
  | .arr _ => "<list>"

/-- Placeholder for the message of the JSONDecodeError raised by r.json()
on a non-JSON body; it is caught and only interpolated into a log line. -/
def jsonDecodeFailureMsg : String := "Expecting value"

/-- Embedding of the body extraction data.get("data", \x7b\x7d).get("status")
of get_phantom_status (src/unnamed/part_000 line 52).
Python dict.get returns the stored value when the key is present (even when
that value is None) and the supplied default otherwise; calling .get on a
non-dict (list, str, int, None) raises AttributeError, which
get_phantom_status does NOT catch (its handler only catches
requests.RequestException). A stored JSON null reads back as Python None. -/
def statusFromAgentJson (data : Json) : Except PyExn (Option Json) :=
  match data with
  | .obj fs =>
      match lookupField fs "data" with
      | none => .ok none
      | some (Json.obj fs2) =>
          .ok (match lookupField fs2 "status" with
               | some Json.jnull => none
               | v => v)
      | some _ => .error .attributeError
  | _ => .error .attributeError

/-- Embedding of get_phantom_status (src/unnamed/part_000, lines 42-58).
Returns the Python return value (None encoded as none) together with the
messages it logs, or the exception it raises past its boundary. The try
block catches only requests.RequestException, so transport errors and the
JSONDecodeError of r.json() are converted to None plus a log line, while the
AttributeError from a 200 response whose JSON body is not an object of
objects escapes. -/
def get_phantom_status (resp : HttpResult) : Except PyExn (Option Json × List String) :=
  match resp with
  | .transportError msg =>
      .ok (none, ["❌ Error fetching status: " ++ msg])
  | .response code body text =>
      if code = 200 then
        match body with
        | .rawBody _ =>
            .ok (none, ["❌ Error fetching status: " ++ jsonDecodeFailureMsg])
        | .jsonBody data =>
            match statusFromAgentJson data with
            | .error e => .error e
            | .ok st => .ok (st, [])
      else
        .ok (none, ["⚠️ Failed to fetch status (HTTP " ++ toString code ++ "): " ++ text.take 200])

/-- Embedding of launch_phantom (src/unnamed/part_000, lines 60-75):
true exactly on a 200 acknowledgment; any other status code or a transport
error yields false plus a log message. Nothing in its body can raise past
the RequestException handler. -/
def launch_phantom (resp : HttpResult) : Bool × List String :=
  match resp with
  | .transportError msg =>
      (false, ["❌ Error launching phantom: " ++ msg])
  | .response code _ text =>
      if code = 200 then (true, [])
      else (false, ["⚠️ Launch failed (HTTP " ++ toString code ++ "): " ++ text.take 200])

/-- Rendering of the log function (src/unnamed/part_000 lines 26-29):
each message is prefixed with a bracketed timestamp. -/
def mkLog (ts msg : String) : String := "[" ++ ts ++ "] " ++ msg

/-- Append messages to the session log, timestamping each one. -/
def appendLogs (ts : String) (logs msgs : List String) : List String :=
  logs ++ msgs.map (mkLog ts)

/-- Configuration of automation_loop: run_count, poll_seconds, idle_only
(src/unnamed/part_000 line 81). The UI constrains run_count to 1..9999 and
poll_seconds to 5..3600, but the loop itself accepts any values. -/
structure LoopCfg where
  run_count : Nat
  poll_seconds : Nat
  idle_only : Bool

/-- Control position of the automation_loop thread between observable steps:
top = about to evaluate the while condition (line 84); sleepNorm slept = at
the condition of the cancellable sub-sleep (lines 116-119); sleepUnknown =
about to execute the uninterruptible time.sleep(poll_seconds) of the
API-error path (line 88); stopped = after the finally block. -/
inductive Phase where
  | top
  | sleepNorm (slept : Nat)
  | sleepUnknown
  | stopped
deriving DecidableEq

/-- The shared session state of part_000 as seen by the loop and the UI
thread, plus the loop control position and an instrumentation counter of
launch HTTP requests issued (launch_attempts is observational only). -/
structure LoopState where
  phase : Phase
  stop_flag : Bool
  activations_done : Nat
  is_running : Bool
  logs : List String
  launch_attempts : Nat

/-- Environment of one loop step: the HTTP outcomes the network would give
to the status fetch and to the launch call, and the wall-clock timestamp
used for any log lines written during the step. -/
structure CycleEnv where
  pollResp : HttpResult
  launchResp : HttpResult
  ts : String

/-- The finally block of automation_loop (lines 123-126): clear is_running,
log the stop message, and leave the loop. -/
def finallyStop (ts : String) (s : LoopState) : LoopState :=
  { s with is_running := false,
           logs := appendLogs ts s.logs ["🛑 Automation thread stopped."],
           phase := .stopped }

/-- Python str() of a caught exception, for the log line of the outer
except handler. -/
def exnMsg : PyExn → String
  | .attributeError => "AttributeError"
  | .requestException m => m

/-- The shared launch block of both policy branches (lines 94-101 and
106-113): log the launch line, call launch_phantom, then increment
activations_done and log success, or log failure, and fall into the
inter-poll sleep. -/
def attemptLaunch (s : LoopState) (env : CycleEnv) (logsBefore : List String)
    (launchMsg : String) : LoopState :=
  let logs2 := appendLogs env.ts logsBefore [launchMsg]
  let res := launch_phantom env.launchResp
  let logs3 := appendLogs env.ts logs2 res.2
  if res.1 then
    { s with activations_done := s.activations_done + 1,
             logs := appendLogs env.ts logs3 ["✅ Launch requested successfully."],
             launch_attempts := s.launch_attempts + 1,
             phase := .sleepNorm 0 }
  else
    { s with logs := appendLogs env.ts logs3 ["❌ Launch request failed."],
             launch_attempts := s.launch_attempts + 1,
             phase := .sleepNorm 0 }

/-- One observable step of automation_loop (src/unnamed/part_000 lines
81-126), dispatched on the current control position (passed explicitly so
that each position has its own equation). The second component is the
number of seconds the step spends in time.sleep. From the top of the loop a
step evaluates the while condition and, when it holds, runs one full body up
to the next suspension point: a poll classified Unknown (None) leads to the
uninterruptible full-interval sleep; a parsed status runs the launch policy
and falls into the cancellable sub-sleep; an exception escaping
get_phantom_status is caught by the outer handler and the loop stops through
the finally block. -/
def loopGo (cfg : LoopCfg) (s : LoopState) (env : CycleEnv) : Phase → LoopState × Nat
  | .stopped => (s, 0)
  | .sleepUnknown =>
      ({ s with phase := .top }, cfg.poll_seconds)
  | .sleepNorm slept =>
      if slept < cfg.poll_seconds ∧ s.stop_flag = false then
        ({ s with phase := .sleepNorm (slept + 1) }, 1)
      else
        ({ s with phase := .top }, 0)
  | .top =>
      if s.stop_flag = false ∧ s.activations_done < cfg.run_count then
        match get_phantom_status env.pollResp with
        | .error e =>
            (finallyStop env.ts
              { s with logs := (appendLogs env.ts s.logs
                  ["💥 Unexpected error in automation loop: " ++ exnMsg e]) }, 0)
        | .ok (none, msgs) =>
            ({ s with logs := appendLogs env.ts s.logs msgs,
                      phase := .sleepUnknown }, 0)
        | .ok (some raw, msgs) =>
            let logs1 := appendLogs env.ts s.logs msgs
            if cfg.idle_only then
              if jsonIsStr raw "running" then
                ({ s with logs := appendLogs env.ts logs1 ["⏳ Phantom is running. Waiting..."],
                          phase := .sleepNorm 0 }, 0)
              else
                (attemptLaunch s env logs1
                  ("▶️ Launching Phantom (activation " ++ toString (s.activations_done + 1)
                    ++ "/" ++ toString cfg.run_count ++ ") — status currently "
                    ++ pyStr raw ++ "."), 0)
            else
              (attemptLaunch s env logs1
                ("▶️ Launching Phantom (activation " ++ toString (s.activations_done + 1)
                  ++ "/" ++ toString cfg.run_count ++ ") — status "
                  ++ pyStr raw ++ "."), 0)
      else
        (finallyStop env.ts s, 0)

/-- One observable step of automation_loop from the control position stored
in the state. -/
def loopStep (cfg : LoopCfg) (s : LoopState) (env : CycleEnv) : LoopState × Nat :=
  loopGo cfg s env s.phase

/-- The clear-logs button handler (src/unnamed/part_000 lines 157-160):
replace the log list by the empty list, reset activations_done to 0, then
append the cleared notice. It runs on the UI thread, unconditionally. -/
def clear_logs (ts : String) (s : LoopState) : LoopState :=
  { s with logs := appendLogs ts [] ["🧹 Logs cleared."],
           activations_done := 0 }

/-- The stop button handler (src/unnamed/part_000 lines 162-164): when the
loop is running, set stop_flag and log the request. -/
def stop_request (ts : String) (s : LoopState) : LoopState :=
  if s.is_running then
    { s with stop_flag := true,
             logs := appendLogs ts s.logs ["🛑 Stop requested."] }
  else s

/-- Session state right after the start button handler spawned the thread
(lines 173-186) and the thread logged its banner (line 82). -/
def startState (ts : String) (prevLogs : List String) : LoopState :=
  { phase := .top,
    stop_flag := false,
    activations_done := 0,
    is_running := true,
    logs := appendLogs ts prevLogs ["🔄 Automation started.", "🚀 Automation thread started."],
    launch_attempts := 0 }

/-- Events of the part_000 system: one observable step of the loop thread,
or one of the UI handlers running on the main thread. UI events interleave
only at loop step boundaries, which is faithful because each loop step is
atomic up to the points where the code reads the shared flags. -/
inductive UiEv where
  | loopTick (env : CycleEnv)
  | stopReq (ts : String)
  | clearReq (ts : String)

/-- Whether an event is the clear-logs handler. -/
def UiEv.isClear : UiEv → Bool
  | .clearReq _ => true
  | _ => false

/-- Dispatch one event of the part_000 system. -/
def sysStep (cfg : LoopCfg) (s : LoopState) : UiEv → LoopState × Nat
  | .loopTick env => loopStep cfg s env
  | .stopReq ts => (stop_request ts s, 0)
  | .clearReq ts => (clear_logs ts s, 0)

/-- Run a list of events, accumulating the slept seconds. -/
def runEvs (cfg : LoopCfg) (s : LoopState) : List UiEv → LoopState × Nat
  | [] => (s, 0)
  | e :: rest =>
      let p := sysStep cfg s e
      let q := runEvs cfg p.1 rest
      (q.1, p.2 + q.2)

/-- True exactly on the error constructor of Except. -/
def isErr : Except PyExn (Option Json × List String) → Bool
  | .error _ => true
  | .ok _ => false

/- ===== The PhantomController variant (src/app.py) ===== -/

/-- Mutable fields of PhantomController relevant to the loop
(src/app.py lines 8-22). -/
structure Controller where
  is_active : Bool
  launch_count : Nat
  max_launches : Nat
  automation_running : Bool
deriving DecidableEq

/-- Embedding of PhantomController.check_status (src/app.py lines 24-45).
Every exception (including the AttributeError from .get on a non-dict body
and the JSONDecodeError from response.json()) is caught by the bare except
and converted to False; a non-200 response also yields False. On 200 the
agent is considered active exactly when the top-level status field is one of
running, launching, waiting, and is_active is updated accordingly (the
missing-key default is the string unknown, which is not in that list; a
stored JSON null reads back as Python None, also not in the list). -/
def check_status (resp : HttpResult) (c : Controller) : Bool × Controller :=
  match resp with
  | .transportError _ => (false, c)
  | .response code body _ =>
      if code = 200 then
        match body with
        | .rawBody _ => (false, c)
        | .jsonBody data =>
            match data with
            | .obj fs =>
                let statusVal := (lookupField fs "status").getD (Json.jstr "unknown")
                let active := jsonIsStr statusVal "running"
                  || jsonIsStr statusVal "launching"
                  || jsonIsStr statusVal "waiting"
                (active, { c with is_active := active })
            | _ => (false, c)
      else
        (false, c)

/-- Embedding of PhantomController.launch_phantom (src/app.py lines 47-65):
on a 200 acknowledgment set is_active and increment launch_count and return
true; otherwise return false with the controller unchanged. -/
def ctl_launch_phantom (resp : HttpResult) (c : Controller) : Bool × Controller :=
  match resp with
  | .transportError _ => (false, c)
  | .response code _ _ =>
      if code = 200 then
        (true, { c with is_active := true, launch_count := c.launch_count + 1 })
      else
        (false, c)

/-- Control position of the run_automation thread (src/app.py lines 71-85):
top = about to evaluate the while condition; sleeping = about to execute the
uninterruptible time.sleep(status_check_interval); stopped = after the loop. -/
inductive CtlPhase where
  | top
  | sleeping
  | stopped
deriving DecidableEq

/-- State of the PhantomController system: the controller object, the loop
control position, and an observational count of launch HTTP requests. -/
structure CtlState where
  ctrl : Controller
  phase : CtlPhase
  launch_attempts : Nat
deriving DecidableEq

/-- Environment of one run_automation iteration. -/
structure CtlEnv where
  pollResp : HttpResult
  launchResp : HttpResult

/-- One observable step of run_automation (src/app.py lines 71-85); the
second component is the seconds spent in time.sleep (the fixed
status_check_interval is 30). From the top, the while condition
automation_running and (max_launches == 0 or launch_count < max_launches)
is evaluated; when it holds the body runs check_status and, when the result
is falsy — which includes every error outcome — calls launch_phantom,
ignoring its return value, then falls into the sleep. The control position
is passed explicitly so that each position has its own equation. -/
def ctlGo (s : CtlState) (env : CtlEnv) : CtlPhase → CtlState × Nat
  | .stopped => (s, 0)
  | .sleeping => ({ s with phase := .top }, 30)
  | .top =>
      if s.ctrl.automation_running = true ∧
          (s.ctrl.max_launches = 0 ∨ s.ctrl.launch_count < s.ctrl.max_launches) then
        let pc := check_status env.pollResp s.ctrl
        if pc.1 then
          ({ s with ctrl := pc.2, phase := .sleeping }, 0)
        else
          let lc := ctl_launch_phantom env.launchResp pc.2
          ({ s with ctrl := lc.2,
                    launch_attempts := s.launch_attempts + 1,
                    phase := .sleeping }, 0)
      else
        ({ s with ctrl := { s.ctrl with automation_running := false },
                  phase := .stopped }, 0)

/-- One observable step of run_automation from the control position stored
in the state. -/
def ctlStep (s : CtlState) (env : CtlEnv) : CtlState × Nat :=
  ctlGo s env s.phase

/- ===== Shared lemmas about the automation_loop step ===== -/

/-- In any single loop step, activations_done is either unchanged or
incremented by exactly one, and an increment only happens when the counter
was strictly below run_count (the while condition guards the body). -/
theorem loopStep_done_cases (cfg : LoopCfg) (s : LoopState) (env : CycleEnv) :
    (loopStep cfg s env).1.activations_done = s.activations_done ∨
    ((loopStep cfg s env).1.activations_done = s.activations_done + 1 ∧
      s.activations_done < cfg.run_count) := by
  unfold loopStep
  cases hph : s.phase with
  | stopped => left; rfl
  | sleepUnknown => left; rfl
  | sleepNorm k =>
      simp only [loopGo]
      by_cases hc : k < cfg.poll_seconds ∧ s.stop_flag = false
      · rw [if_pos hc]; left; rfl
      · rw [if_neg hc]; left; rfl
  | top =>
      simp only [loopGo]
      by_cases hc : s.stop_flag = false ∧ s.activations_done < cfg.run_count
      · rw [if_pos hc]
        cases hg : get_phantom_status env.pollResp with
        | error e => left; rfl
        | ok p =>
            obtain ⟨st, msgs⟩ := p
            cases st with
            | none => left; rfl
            | some raw =>
                simp only
                by_cases hio : cfg.idle_only
                · rw [if_pos hio]
                  by_cases hr : jsonIsStr raw "running"
                  · rw [if_pos hr]; left; rfl
                  · rw [if_neg hr]
                    unfold attemptLaunch
                    by_cases hl : (launch_phantom env.launchResp).1
                    · rw [if_pos hl]; right; exact ⟨rfl, hc.2⟩
                    · rw [if_neg hl]; left; rfl
                · rw [if_neg hio]
                  unfold attemptLaunch
                  by_cases hl : (launch_phantom env.launchResp).1
                  · rw [if_pos hl]; right; exact ⟨rfl, hc.2⟩
                  · rw [if_neg hl]; left; rfl
      · rw [if_neg hc]; left; rfl

/-- Any system event other than the clear-logs handler never decreases
activations_done and preserves the upper bound run_count. -/
theorem sysStep_done_mono (cfg : LoopCfg) (s : LoopState) (e : UiEv)
    (h : e.isClear = false) :
    s.activations_done ≤ (sysStep cfg s e).1.activations_done ∧
    (s.activations_done ≤ cfg.run_count →
      (sysStep cfg s e).1.activations_done ≤ cfg.run_count) := by
  cases e with
  | clearReq ts => exact absurd h (by simp [UiEv.isClear])
  | stopReq ts =>
      simp only [sysStep]
      unfold stop_request
      by_cases hr : s.is_running
      · rw [if_pos hr]; exact ⟨le_rfl, fun hb => hb⟩
      · rw [if_neg hr]; exact ⟨le_rfl, fun hb => hb⟩
  | loopTick env =>
      simp only [sysStep]
      rcases loopStep_done_cases cfg s env with h1 | ⟨h1, h2⟩
      · rw [h1]; exact ⟨le_rfl, fun hb => hb⟩
      · rw [h1]; exact ⟨Nat.le_succ _, fun _ => h2⟩

/-- Along any event trace that contains no clear-logs event,
activations_done is non-decreasing and bounded by run_count. -/
theorem runEvs_done_mono (cfg : LoopCfg) (evs : List UiEv) :
    ∀ s : LoopState, (∀ e ∈ evs, e.isClear = false) →
      s.activations_done ≤ (runEvs cfg s evs).1.activations_done ∧
      (s.activations_done ≤ cfg.run_count →
        (runEvs cfg s evs).1.activations_done ≤ cfg.run_count) := by
  induction evs with
  | nil => intro s _; exact ⟨le_rfl, fun hb => hb⟩
  | cons e rest ih =>
      intro s h
      have he : e.isClear = false := h e (List.mem_cons_self _ _)
      have hrest : ∀ x ∈ rest, x.isClear = false :=
        fun x hx => h x (List.mem_cons_of_mem _ hx)
      have hstep := sysStep_done_mono cfg s e he
      have htail := ih (sysStep cfg s e).1 hrest
      simp only [runEvs]
      exact ⟨le_trans hstep.1 htail.1, fun hb => htail.2 (hstep.2 hb)⟩

/-- From the top of the loop, a step reaches Stopped exactly when the while
condition fails (stop_flag set or counter at run_count) or the status fetch
raised an exception that the outer handler caught. -/
theorem loopStep_stopped_of_top_iff (cfg : LoopCfg) (s : LoopState)
    (env : CycleEnv) (hph : s.phase = Phase.top) :
    ((loopStep cfg s env).1.phase = Phase.stopped ↔
      (s.stop_flag = true ∨ cfg.run_count ≤ s.activations_done ∨
        isErr (get_phantom_status env.pollResp) = true)) := by
  unfold loopStep
  rw [hph]
  simp only [loopGo]
  by_cases hc : s.stop_flag = false ∧ s.activations_done < cfg.run_count
  · rw [if_pos hc]
    obtain ⟨h1, h2⟩ := hc
    have hnot1 : ¬ (s.stop_flag = true) := by rw [h1]; exact Bool.false_ne_true
    have hnot2 : ¬ (cfg.run_count ≤ s.activations_done) := Nat.not_le.mpr h2
    cases hg : get_phantom_status env.pollResp with
    | error e =>
        simp [finallyStop, isErr, hnot1, hnot2]
    | ok p =>
        obtain ⟨st, msgs⟩ := p
        cases st with
        | none => simp [isErr, hnot1, hnot2]
        | some raw =>
            simp only [isErr]
            by_cases hio : cfg.idle_only
            · rw [if_pos hio]
              by_cases hr : jsonIsStr raw "running"
              · rw [if_pos hr]; simp [hnot1, hnot2]
              · rw [if_neg hr]
                unfold attemptLaunch
                by_cases hl : (launch_phantom env.launchResp).1
                · rw [if_pos hl]; simp [hnot1, hnot2]
                · rw [if_neg hl]; simp [hnot1, hnot2]
            · rw [if_neg hio]
              unfold attemptLaunch
              by_cases hl : (launch_phantom env.launchResp).1
              · rw [if_pos hl]; simp [hnot1, hnot2]
              · rw [if_neg hl]; simp [hnot1, hnot2]
  · rw [if_neg hc]
    have hor : s.stop_flag = true ∨ cfg.run_count ≤ s.activations_done := by
      by_cases hsf : s.stop_flag = false
      · right
        by_cases hlt : s.activations_done < cfg.run_count
        · exact absurd ⟨hsf, hlt⟩ hc
        · exact Nat.not_lt.mp hlt
      · left
        cases hb : s.stop_flag with
        | false => exact absurd hb hsf
        | true => rfl
    constructor
    · intro _
      rcases hor with h | h
      · exact Or.inl h
      · exact Or.inr (Or.inl h)
    · intro _
      rfl

/- ===== Claim C1 ===== -/

/-- Concrete controller state for C1: automation running, bounded target 5,
no launches yet, at the top of the run_automation loop. -/
def ctlStateC1 : CtlState :=
  { ctrl := { is_active := false, launch_count := 0, max_launches := 5,
              automation_running := true },
    phase := CtlPhase.top, launch_attempts := 0 }

/-- Concrete environment for C1: the status fetch fails with a transport
error (classification Unknown), the launch endpoint would acknowledge. -/
def ctlEnvC1 : CtlEnv :=
  { pollResp := HttpResult.transportError "connection timeout",
    launchResp := HttpResult.response 200 (Body.rawBody "ok") "ok" }

/-- C1 counterexample: in the PhantomController variant (src/app.py), a poll
cycle whose status fetch fails with a transport error — a cycle the claim
classifies as Unknown and therefore requires to issue no launch request —
does issue a launch request: check_status converts the error to False, the
loop reads False as inactive and calls launch_phantom, which the remote
acknowledges, so the launch counter even advances. -/
theorem C1_counterexample_controller_launches_on_unknown :
    (ctlStep ctlStateC1 ctlEnvC1).1.launch_attempts = 1 ∧
    (ctlStep ctlStateC1 ctlEnvC1).1.ctrl.launch_count = 1 :=
  ⟨rfl, rfl⟩

/-- C1 (amended): in the automation_loop variant (src/unnamed/part_000), a
poll cycle whose status classification is Unknown — get_phantom_status
returns None, covering transport errors, non-200 responses, undecodable
bodies and a missing status field — issues no launch request and leaves the
activation counter unchanged, regardless of the launchOnlyWhenIdle setting;
the PhantomController variant (src/app.py) does not have this property: it
treats a failed status check as inactive and issues a launch that cycle. -/
theorem C1_unknown_no_launch (cfg : LoopCfg) (s : LoopState) (env : CycleEnv)
    (msgs : List String) (hph : s.phase = Phase.top)
    (hun : get_phantom_status env.pollResp = Except.ok (none, msgs)) :
    (loopStep cfg s env).1.launch_attempts = s.launch_attempts ∧
    (loopStep cfg s env).1.activations_done = s.activations_done := by
  unfold loopStep
  rw [hph]
  simp only [loopGo]
  by_cases hc : s.stop_flag = false ∧ s.activations_done < cfg.run_count
  · rw [if_pos hc, hun]
    exact ⟨rfl, rfl⟩
  · rw [if_neg hc]
    exact ⟨rfl, rfl⟩

/-- Configuration for the C1 witness. -/
def cfgC1 : LoopCfg := { run_count := 5, poll_seconds := 5, idle_only := true }

/-- Environment for the C1 witness: a transport error on the status fetch. -/
def envC1 : CycleEnv :=
  { pollResp := HttpResult.transportError "timeout",
    launchResp := HttpResult.response 200 (Body.rawBody "ok") "ok",
    ts := "t1" }

/-- C1 witness: the amended theorem applied to a concrete running state and
a concrete Unknown cycle. -/
theorem C1_unknown_no_launch_witness :
    (loopStep cfgC1 (startState "t0" []) envC1).1.launch_attempts
        = (startState "t0" []).launch_attempts ∧
    (loopStep cfgC1 (startState "t0" []) envC1).1.activations_done
        = (startState "t0" []).activations_done :=
  C1_unknown_no_launch cfgC1 (startState "t0" []) envC1
    ["❌ Error fetching status: " ++ "timeout"] rfl rfl

/- ===== Claim C2 ===== -/

/-- Configuration for the C2 counterexample: bounded target 1. -/
def cfgC2 : LoopCfg := { run_count := 1, poll_seconds := 5, idle_only := true }

/-- Environment for the C2 counterexample: a parsed idle status and an
acknowledged launch. -/
def envC2 : CycleEnv :=
  { pollResp := HttpResult.response 200
      (Body.jsonBody (Json.obj [("data", Json.obj [("status", Json.jstr "finished")])])) "ok",
    launchResp := HttpResult.response 200 (Body.rawBody "ok") "ok",
    ts := "t1" }

/-- C2 counterexample: activations_done is not non-decreasing while the loop
runs — after one successful launch cycle the counter is 1, and a clear-logs
event on the UI thread resets it to 0 while the loop is still running
(is_running is still true), so the counter decreased during the run. -/
theorem C2_counterexample_clear_decreases_counter :
    (runEvs cfgC2 (startState "t0" []) [UiEv.loopTick envC2]).1.activations_done = 1 ∧
    (runEvs cfgC2 (startState "t0" [])
        [UiEv.loopTick envC2, UiEv.clearReq "t2"]).1.activations_done = 0 ∧
    (runEvs cfgC2 (startState "t0" [])
        [UiEv.loopTick envC2, UiEv.clearReq "t2"]).1.is_running = true :=
  ⟨rfl, rfl, rfl⟩

/-- C2 (amended): along any trace free of clear-logs events,
activations_done is non-decreasing and, when it starts at or below
run_count, never exceeds run_count; and from the top of the loop a step
reaches Stopped exactly when stop_flag is set, the counter has reached
run_count, or the status fetch raised an exception that the outer handler
caught. The clear-logs handler, which runs on the UI thread, can reset the
counter to 0 in the middle of a run, so the original claim fails without
the no-clear proviso. -/
theorem C2_counter_invariants (cfg : LoopCfg) (s : LoopState)
    (evs : List UiEv) (env : CycleEnv)
    (hnc : ∀ e ∈ evs, e.isClear = false)
    (hb : s.activations_done ≤ cfg.run_count)
    (hph : s.phase = Phase.top) :
    s.activations_done ≤ (runEvs cfg s evs).1.activations_done ∧
    (runEvs cfg s evs).1.activations_done ≤ cfg.run_count ∧
    ((loopStep cfg s env).1.phase = Phase.stopped ↔
      (s.stop_flag = true ∨ cfg.run_count ≤ s.activations_done ∨
        isErr (get_phantom_status env.pollResp) = true)) := by
  have hm := runEvs_done_mono cfg evs s hnc
  exact ⟨hm.1, hm.2 hb, loopStep_stopped_of_top_iff cfg s env hph⟩

/-- Configuration for the C2 witness. -/
def cfgC2w : LoopCfg := { run_count := 2, poll_seconds := 5, idle_only := true }

/-- Environment for the C2 witness. -/
def envC2w : CycleEnv :=
  { pollResp := HttpResult.response 200
      (Body.jsonBody (Json.obj [("data", Json.obj [("status", Json.jstr "finished")])])) "ok",
    launchResp := HttpResult.response 200 (Body.rawBody "ok") "ok",
    ts := "t1" }

/-- C2 witness: the amended theorem applied to a concrete fresh run and a
concrete clear-free trace of one launch cycle followed by a stop request. -/
theorem C2_counter_invariants_witness :
    (startState "t0" []).activations_done ≤
      (runEvs cfgC2w (startState "t0" [])
        [UiEv.loopTick envC2w, UiEv.stopReq "t2"]).1.activations_done ∧
    (runEvs cfgC2w (startState "t0" [])
        [UiEv.loopTick envC2w, UiEv.stopReq "t2"]).1.activations_done ≤ cfgC2w.run_count ∧
    ((loopStep cfgC2w (startState "t0" []) envC2w).1.phase = Phase.stopped ↔
      ((startState "t0" []).stop_flag = true ∨
        cfgC2w.run_count ≤ (startState "t0" []).activations_done ∨
        isErr (get_phantom_status envC2w.pollResp) = true)) :=
  C2_counter_invariants cfgC2w (startState "t0" [])
    [UiEv.loopTick envC2w, UiEv.stopReq "t2"] envC2w
    (by decide) (by decide) rfl

/- ===== Claim C3 ===== -/

/-- Configuration for the C3 counterexample: idle-only policy on. -/
def cfgC3 : LoopCfg := { run_count := 5, poll_seconds := 5, idle_only := true }

/-- Environment for the C3 counterexample: the remote reports the raw status
waiting, and the launch endpoint acknowledges. -/
def envC3 : CycleEnv :=
  { pollResp := HttpResult.response 200
      (Body.jsonBody (Json.obj [("data", Json.obj [("status", Json.jstr "waiting")])])) "ok",
    launchResp := HttpResult.response 200 (Body.rawBody "ok") "ok",
    ts := "t1" }

/-- C3 counterexample: with launchOnlyWhenIdle true and a raw status of
waiting — which the claim classifies as Active and therefore requires to
suppress the launch and log a waiting message — the automation_loop issues a
launch request anyway and the counter advances: only the exact string
running suppresses a launch in src/unnamed/part_000. -/
theorem C3_counterexample_waiting_launches :
    (loopStep cfgC3 (startState "t0" []) envC3).1.launch_attempts = 1 ∧
    (loopStep cfgC3 (startState "t0" []) envC3).1.activations_done = 1 ∧
    cfgC3.idle_only = true :=
  ⟨rfl, rfl, rfl⟩

/-- C3 (amended): in the automation_loop variant with launchOnlyWhenIdle
true, for a poll cycle whose status parses, a launch is attempted if and
only if the raw status differs from the single string running — so the
statuses launching and waiting are treated as launchable, unlike the
three-value classification of the PhantomController variant — and when the
raw status is running, the waiting message is logged and neither a launch
nor a counter change occurs that cycle. -/
theorem C3_idle_only_policy (cfg : LoopCfg) (s : LoopState) (env : CycleEnv)
    (raw : Json) (msgs : List String)
    (hph : s.phase = Phase.top) (hs : s.stop_flag = false)
    (hd : s.activations_done < cfg.run_count) (hio : cfg.idle_only = true)
    (hst : get_phantom_status env.pollResp = Except.ok (some raw, msgs)) :
    ((loopStep cfg s env).1.launch_attempts = s.launch_attempts + 1
        ↔ jsonIsStr raw "running" = false) ∧
    (jsonIsStr raw "running" = true →
      (loopStep cfg s env).1.launch_attempts = s.launch_attempts ∧
      (loopStep cfg s env).1.activations_done = s.activations_done ∧
      (loopStep cfg s env).1.logs =
        appendLogs env.ts (appendLogs env.ts s.logs msgs)
          ["⏳ Phantom is running. Waiting..."]) := by
  unfold loopStep
  rw [hph]
  simp only [loopGo]
  rw [if_pos ⟨hs, hd⟩, hst]
  simp only
  rw [if_pos hio]
  by_cases hr : jsonIsStr raw "running"
  · rw [if_pos hr]
    constructor
    · simp [hr, Nat.succ_ne_self]
    · intro _; exact ⟨rfl, rfl, rfl⟩
  · rw [if_neg hr]
    unfold attemptLaunch
    constructor
    · by_cases hl : (launch_phantom env.launchResp).1
      · rw [if_pos hl]; simp [hr]
      · rw [if_neg hl]; simp [hr]
    · intro habs; rw [habs] at hr; exact absurd rfl hr

/-- Configuration for the C3 witness. -/
def cfgC3w : LoopCfg := { run_count := 5, poll_seconds := 5, idle_only := true }

/-- Environment for the C3 witness: the remote reports the raw status
running. -/
def envC3w : CycleEnv :=
  { pollResp := HttpResult.response 200
      (Body.jsonBody (Json.obj [("data", Json.obj [("status", Json.jstr "running")])])) "ok",
    launchResp := HttpResult.response 200 (Body.rawBody "ok") "ok",
    ts := "t1" }

/-- C3 witness: the amended theorem applied to a concrete running-status
cycle of a concrete fresh run. -/
theorem C3_idle_only_policy_witness :
    ((loopStep cfgC3w (startState "t0" []) envC3w).1.launch_attempts
        = (startState "t0" []).launch_attempts + 1
        ↔ jsonIsStr (Json.jstr "running") "running" = false) ∧
    (jsonIsStr (Json.jstr "running") "running" = true →
      (loopStep cfgC3w (startState "t0" []) envC3w).1.launch_attempts
          = (startState "t0" []).launch_attempts ∧
      (loopStep cfgC3w (startState "t0" []) envC3w).1.activations_done
          = (startState "t0" []).activations_done ∧
      (loopStep cfgC3w (startState "t0" []) envC3w).1.logs =
        appendLogs envC3w.ts (appendLogs envC3w.ts (startState "t0" []).logs [])
          ["⏳ Phantom is running. Waiting..."]) :=
  C3_idle_only_policy cfgC3w (startState "t0" []) envC3w
    (Json.jstr "running") [] rfl rfl (by decide) rfl rfl

/- ===== Claim C4 ===== -/

/-- C4: the status-fetch operation is claimed never to raise past its
boundary, converting every transport or parse failure into the Unknown
classification plus a log entry. This theorem evaluates get_phantom_status
at a failing input: a 200 response whose JSON body is the array [] — valid
JSON, but not the expected object shape — on which data.get raises an
AttributeError that the handler (which catches only RequestException) does
not intercept, so the exception escapes the boundary instead of None being
returned. -/
theorem C4_attribute_error_escapes :
    get_phantom_status (HttpResult.response 200 (Body.jsonBody (Json.arr [])) "[]")
      = Except.error PyExn.attributeError :=
  rfl

/- ===== Claim C5 ===== -/

/-- C5: any unexpected error raised inside the automation_loop body — the
raiser that exists in the repository is the AttributeError escaping
get_phantom_status — is caught by the except handler at the loop boundary,
a log entry is written, and the finally block transitions the loop to
Stopped with is_running set to false; no launch attempt happens and the
fault never propagates past the loop (in the step machine every such cycle
yields a defined successor state rather than a crash). -/
theorem C5_internal_fault_clean_stop (cfg : LoopCfg) (s : LoopState)
    (env : CycleEnv) (e : PyExn)
    (hph : s.phase = Phase.top) (hs : s.stop_flag = false)
    (hd : s.activations_done < cfg.run_count)
    (herr : get_phantom_status env.pollResp = Except.error e) :
    (loopStep cfg s env).1.phase = Phase.stopped ∧
    (loopStep cfg s env).1.is_running = false ∧
    (loopStep cfg s env).1.logs =
      appendLogs env.ts
        (appendLogs env.ts s.logs
          ["💥 Unexpected error in automation loop: " ++ exnMsg e])
        ["🛑 Automation thread stopped."] ∧
    (loopStep cfg s env).1.launch_attempts = s.launch_attempts := by
  unfold loopStep
  rw [hph]
  simp only [loopGo]
  rw [if_pos ⟨hs, hd⟩, herr]
  exact ⟨rfl, rfl, rfl, rfl⟩

/-- Configuration for the C5 witness. -/
def cfgC5 : LoopCfg := { run_count := 3, poll_seconds := 5, idle_only := true }

/-- Environment for the C5 witness: a 200 response whose JSON body is an
array, which makes get_phantom_status raise AttributeError. -/
def envC5 : CycleEnv :=
  { pollResp := HttpResult.response 200 (Body.jsonBody (Json.arr [])) "[]",
    launchResp := HttpResult.response 200 (Body.rawBody "ok") "ok",
    ts := "t1" }

/-- C5 witness: the theorem applied to a concrete fresh run and the concrete
fault-raising poll response. -/
theorem C5_internal_fault_clean_stop_witness :
    (loopStep cfgC5 (startState "t0" []) envC5).1.phase = Phase.stopped ∧
    (loopStep cfgC5 (startState "t0" []) envC5).1.is_running = false ∧
    (loopStep cfgC5 (startState "t0" []) envC5).1.logs =
      appendLogs envC5.ts
        (appendLogs envC5.ts (startState "t0" []).logs
          ["💥 Unexpected error in automation loop: " ++ exnMsg PyExn.attributeError])
        ["🛑 Automation thread stopped."] ∧
    (loopStep cfgC5 (startState "t0" []) envC5).1.launch_attempts
        = (startState "t0" []).launch_attempts :=
  C5_internal_fault_clean_stop cfgC5 (startState "t0" []) envC5
    PyExn.attributeError rfl rfl (by decide) rfl

/- ===== Claim C6 ===== -/

/-- Configuration for the C6 counterexample: run_count 0. -/
def cfgC6 : LoopCfg := { run_count := 0, poll_seconds := 5, idle_only := true }

/-- Environment for the C6 counterexample (never consulted: the loop exits
before polling). -/
def envC6 : CycleEnv :=
  { pollResp := HttpResult.transportError "x",
    launchResp := HttpResult.transportError "x", ts := "t1" }

/-- C6 counterexample: in the automation_loop variant a run with run_count 0
terminates at once because of the activation counter — the while condition
0 < 0 fails on entry — with no launch issued and no cancellation requested,
refuting that a target of 0 makes the loop poll and launch until cancelled. -/
theorem C6_counterexample_loop_exits_at_zero_target :
    (loopStep cfgC6 (startState "t0" []) envC6).1.phase = Phase.stopped ∧
    (loopStep cfgC6 (startState "t0" []) envC6).1.launch_attempts = 0 ∧
    (startState "t0" []).stop_flag = false ∧
    cfgC6.run_count = 0 :=
  ⟨rfl, rfl, rfl, rfl⟩

/-- C6 (amended): in the PhantomController variant a max_launches of 0 means
unbounded — from the top of the loop a step reaches Stopped exactly when
automation_running has been cleared by a cancellation, never because of the
launch counter — whereas in the automation_loop variant a run_count of 0
makes the while condition false immediately, so that loop stops without
polling or launching (its UI in any case restricts run_count to at least 1). -/
theorem C6_zero_target_unbounded (s : CtlState) (env : CtlEnv)
    (cfg : LoopCfg) (t : LoopState) (env2 : CycleEnv)
    (hm : s.ctrl.max_launches = 0) (hph : s.phase = CtlPhase.top)
    (hrc : cfg.run_count = 0) (hph2 : t.phase = Phase.top) :
    ((ctlStep s env).1.phase = CtlPhase.stopped ↔
      s.ctrl.automation_running = false) ∧
    (loopStep cfg t env2).1.phase = Phase.stopped := by
  constructor
  · unfold ctlStep
    rw [hph]
    simp only [ctlGo]
    by_cases hr : s.ctrl.automation_running = true
    · rw [if_pos ⟨hr, Or.inl hm⟩]
      constructor
      · intro hstop
        by_cases hcur : (check_status env.pollResp s.ctrl).1
        · rw [if_pos hcur] at hstop
          exact absurd hstop (by simp)
        · rw [if_neg hcur] at hstop
          exact absurd hstop (by simp)
      · intro hfalse
        rw [hr] at hfalse
        exact Bool.noConfusion hfalse
    · have hcond : ¬ (s.ctrl.automation_running = true ∧
          (s.ctrl.max_launches = 0 ∨ s.ctrl.launch_count < s.ctrl.max_launches)) :=
        fun h => hr h.1
      rw [if_neg hcond]
      have hfalse : s.ctrl.automation_running = false := by
        cases hb : s.ctrl.automation_running with
        | false => rfl
        | true => exact absurd hb hr
      simp [hfalse]
  · unfold loopStep
    rw [hph2]
    simp only [loopGo]
    rw [if_neg (by rw [hrc]; exact fun h => Nat.not_lt_zero _ h.2)]
    rfl

/-- Controller state for the C6 witness: unbounded target, running. -/
def ctlStateC6 : CtlState :=
  { ctrl := { is_active := false, launch_count := 7, max_launches := 0,
              automation_running := true },
    phase := CtlPhase.top, launch_attempts := 7 }

/-- Controller environment for the C6 witness. -/
def ctlEnvC6 : CtlEnv :=
  { pollResp := HttpResult.response 200
      (Body.jsonBody (Json.obj [("status", Json.jstr "running")])) "ok",
    launchResp := HttpResult.response 200 (Body.rawBody "ok") "ok" }

/-- C6 witness: the amended theorem applied to a concrete unbounded
controller run and a concrete zero-target automation_loop state. -/
theorem C6_zero_target_unbounded_witness :
    ((ctlStep ctlStateC6 ctlEnvC6).1.phase = CtlPhase.stopped ↔
      ctlStateC6.ctrl.automation_running = false) ∧
    (loopStep cfgC6 (startState "t4" []) envC6).1.phase = Phase.stopped :=
  C6_zero_target_unbounded ctlStateC6 ctlEnvC6 cfgC6 (startState "t4" []) envC6
    rfl rfl rfl rfl

/- ===== Claim C7 ===== -/

/-- Configuration for the C7 counterexample: poll interval 60 seconds (the
default of the UI), so the claimed latency bound is 1 tick + 30 seconds
of call timeout = 31 seconds. -/
def cfgC7 : LoopCfg := { run_count := 5, poll_seconds := 60, idle_only := true }

/-- State for the C7 counterexample: cancellation already requested while
the loop is inside the sleep that follows an Unknown cycle. -/
def sC7 : LoopState :=
  { phase := Phase.sleepUnknown, stop_flag := true, activations_done := 0,
    is_running := true, logs := [], launch_attempts := 0 }

/-- Environment for the C7 counterexample (the network is not consulted on
the path to Stopped). -/
def envC7 : CycleEnv :=
  { pollResp := HttpResult.transportError "x",
    launchResp := HttpResult.transportError "x", ts := "t1" }

/-- C7 counterexample: with cancellation requested during the sleep that
follows an Unknown cycle, the loop has not stopped after the sleep step and
only reaches Stopped after the full 60-second poll interval has elapsed —
time.sleep(poll_seconds) on the API-error path is a single uninterruptible
call — exceeding the claimed bound of one 1-second sub-wait tick plus one
30-second in-flight call timeout (31 seconds). -/
theorem C7_counterexample_unknown_sleep_full_interval :
    (runEvs cfgC7 sC7 [UiEv.loopTick envC7]).1.phase ≠ Phase.stopped ∧
    (runEvs cfgC7 sC7 [UiEv.loopTick envC7, UiEv.loopTick envC7]).1.phase
        = Phase.stopped ∧
    (runEvs cfgC7 sC7 [UiEv.loopTick envC7, UiEv.loopTick envC7]).2 = 60 ∧
    ¬ ((runEvs cfgC7 sC7 [UiEv.loopTick envC7, UiEv.loopTick envC7]).2 ≤ 31) := by
  refine ⟨by decide, rfl, rfl, by decide⟩

/-- C7 (amended): cancellation requested while the loop is in the normal
cancellable sub-wait is observed at the next tick boundary and the loop
reaches Stopped with no further sleeping; but cancellation requested while
the loop is in the sleep that follows an Unknown cycle is observed only
after the full poll interval has elapsed, because that sleep is a single
uninterruptible time.sleep(poll_seconds) call with no sub-wait ticks. -/
theorem C7_cancel_latency (cfg : LoopCfg) (s : LoopState)
    (env env2 : CycleEnv) (k : Nat) (hstop : s.stop_flag = true) :
    (s.phase = Phase.sleepNorm k →
      (runEvs cfg s [UiEv.loopTick env, UiEv.loopTick env2]).1.phase
          = Phase.stopped ∧
      (runEvs cfg s [UiEv.loopTick env, UiEv.loopTick env2]).2 = 0) ∧
    (s.phase = Phase.sleepUnknown →
      (runEvs cfg s [UiEv.loopTick env, UiEv.loopTick env2]).1.phase
          = Phase.stopped ∧
      (runEvs cfg s [UiEv.loopTick env, UiEv.loopTick env2]).2 = cfg.poll_seconds) := by
  have hns : ¬ (s.stop_flag = false) := by
    rw [hstop]; exact fun h => Bool.noConfusion h
  have hcond : ∀ m : Nat, ¬ (m < cfg.poll_seconds ∧ s.stop_flag = false) :=
    fun m h => hns h.2
  constructor
  · intro hph
    simp only [runEvs, sysStep]
    unfold loopStep
    rw [hph]
    simp only [loopGo]
    rw [if_neg (hcond k)]
    simp only [loopGo]
    rw [if_neg (fun h => hns h.1)]
    exact ⟨rfl, rfl⟩
  · intro hph
    simp only [runEvs, sysStep]
    unfold loopStep
    rw [hph]
    simp only [loopGo]
    rw [if_neg (fun h => hns h.1)]
    exact ⟨rfl, by simp⟩

/-- State for the C7 witness: cancellation requested while inside the
normal cancellable sub-wait. -/
def sC7w : LoopState :=
  { phase := Phase.sleepNorm 0, stop_flag := true, activations_done := 1,
    is_running := true, logs := [], launch_attempts := 1 }

/-- C7 witness: the amended theorem applied to the concrete sub-wait state. -/
theorem C7_cancel_latency_witness :
    (sC7w.phase = Phase.sleepNorm 0 →
      (runEvs cfgC7 sC7w [UiEv.loopTick envC7, UiEv.loopTick envC7]).1.phase
          = Phase.stopped ∧
      (runEvs cfgC7 sC7w [UiEv.loopTick envC7, UiEv.loopTick envC7]).2 = 0) ∧
    (sC7w.phase = Phase.sleepUnknown →
      (runEvs cfgC7 sC7w [UiEv.loopTick envC7, UiEv.loopTick envC7]).1.phase
          = Phase.stopped ∧
      (runEvs cfgC7 sC7w [UiEv.loopTick envC7, UiEv.loopTick envC7]).2
          = cfgC7.poll_seconds) :=
  C7_cancel_latency cfgC7 sC7w envC7 envC7 0 rfl

/- ===== Claim C8 ===== -/

/-- C8: in every automation_loop iteration in which a launch is attempted —
the status parsed and the idle-only policy did not suppress the launch —
exactly one launch request is issued, and activations_done increases by
exactly 1 when launch_phantom reports success and is unchanged when it
reports failure. -/
theorem C8_launch_counting (cfg : LoopCfg) (s : LoopState) (env : CycleEnv)
    (raw : Json) (msgs : List String)
    (hph : s.phase = Phase.top) (hs : s.stop_flag = false)
    (hd : s.activations_done < cfg.run_count)
    (hst : get_phantom_status env.pollResp = Except.ok (some raw, msgs))
    (hatt : cfg.idle_only = false ∨ jsonIsStr raw "running" = false) :
    (loopStep cfg s env).1.launch_attempts = s.launch_attempts + 1 ∧
    (loopStep cfg s env).1.activations_done =
      s.activations_done +
        (if (launch_phantom env.launchResp).1 = true then 1 else 0) := by
  unfold loopStep
  rw [hph]
  simp only [loopGo]
  rw [if_pos ⟨hs, hd⟩, hst]
  simp only
  have step : ∀ msg logs1,
      (attemptLaunch s env logs1 msg).launch_attempts = s.launch_attempts + 1 ∧
      (attemptLaunch s env logs1 msg).activations_done =
        s.activations_done +
          (if (launch_phantom env.launchResp).1 = true then 1 else 0) := by
    intro msg logs1
    unfold attemptLaunch
    by_cases hl : (launch_phantom env.launchResp).1
    · rw [if_pos hl]; simp [hl]
    · rw [if_neg hl]; simp [hl]
  rcases hatt with hio | hr
  · rw [hio]
    simp only [Bool.false_eq_true, if_false]
    exact step _ _
  · by_cases hio : cfg.idle_only
    · rw [if_pos hio, if_neg (by rw [hr]; exact Bool.false_ne_true)]
      exact step _ _
    · rw [if_neg hio]
      exact step _ _

/-- Configuration for the C8 witness. -/
def cfgC8 : LoopCfg := { run_count := 3, poll_seconds := 5, idle_only := true }

/-- Environment for the C8 witness: an idle status and an acknowledged
launch. -/
def envC8 : CycleEnv :=
  { pollResp := HttpResult.response 200
      (Body.jsonBody (Json.obj [("data", Json.obj [("status", Json.jstr "finished")])])) "ok",
    launchResp := HttpResult.response 200 (Body.rawBody "ok") "ok",
    ts := "t1" }

/-- C8 witness: the theorem applied to a concrete attempted-launch cycle. -/
theorem C8_launch_counting_witness :
    (loopStep cfgC8 (startState "t0" []) envC8).1.launch_attempts
        = (startState "t0" []).launch_attempts + 1 ∧
    (loopStep cfgC8 (startState "t0" []) envC8).1.activations_done
        = (startState "t0" []).activations_done +
            (if (launch_phantom envC8.launchResp).1 = true then 1 else 0) :=
  C8_launch_counting cfgC8 (startState "t0" []) envC8
    (Json.jstr "finished") [] rfl rfl (by decide) rfl (Or.inr rfl)

/- ===== Claim C9 ===== -/

/-- C9 counterexample: the state produced by one clear-logs invocation does
not have an empty log — the handler appends the timestamped cleared notice
right after emptying the list — refuting that clearing yields an empty-log
state. -/
theorem C9_counterexample_cleared_log_not_empty :
    ¬ ((clear_logs "t1" (startState "t0" [])).logs = []) := by
  decide

/-- C9 (amended): the clear-log operation is idempotent — with the same
timestamp, invoking it twice in a row yields exactly the state of invoking
it once — but the common resulting state is not an empty-log state: its log
holds exactly the timestamped cleared notice, and activations_done is reset
to 0. -/
theorem C9_clear_idempotent (ts : String) (s : LoopState) :
    clear_logs ts (clear_logs ts s) = clear_logs ts s ∧
    (clear_logs ts s).activations_done = 0 ∧
    (clear_logs ts s).logs = [mkLog ts "🧹 Logs cleared."] :=
  ⟨rfl, rfl, rfl⟩

/- ===== Claim C10 ===== -/

/-- Configuration for the C10 run: bounded target of a single activation. -/
def cfgC10 : LoopCfg := { run_count := 1, poll_seconds := 5, idle_only := true }

/-- Environment for the C10 run: an idle status and an acknowledged launch. -/
def envC10 : CycleEnv :=
  { pollResp := HttpResult.response 200
      (Body.jsonBody (Json.obj [("data", Json.obj [("status", Json.jstr "finished")])])) "ok",
    launchResp := HttpResult.response 200 (Body.rawBody "ok") "ok",
    ts := "t1" }

/-- Event trace for the C10 run: one successful launch cycle, then the
clear-logs handler fires on the UI thread, then the loop sleeps through its
sub-wait ticks, returns to the top and — because the counter was reset —
launches a second time. -/
def evsC10 : List UiEv :=
  [UiEv.loopTick envC10, UiEv.clearReq "t2",
   UiEv.loopTick envC10, UiEv.loopTick envC10, UiEv.loopTick envC10,
   UiEv.loopTick envC10, UiEv.loopTick envC10, UiEv.loopTick envC10,
   UiEv.loopTick envC10]

/-- C10: the clear-log handler does not only empty the log — it resets
activations_done to 0 and then appends a cleared notice, so afterwards the
log is the non-empty singleton notice; and when it fires during a bounded
run the loop performs additional launches beyond the original target: in
the concrete trace with run_count 1, one successful launch is followed by a
clear, after which the loop launches again — two launch requests in total
against a target of one. -/
theorem C10_clear_resets_and_overshoot (ts : String) (s : LoopState) :
    (clear_logs ts s).activations_done = 0 ∧
    (clear_logs ts s).logs = [mkLog ts "🧹 Logs cleared."] ∧
    (clear_logs ts s).logs ≠ [] ∧
    cfgC10.run_count = 1 ∧
    (runEvs cfgC10 (startState "t0" []) evsC10).1.launch_attempts = 2 ∧
    (runEvs cfgC10 (startState "t0" []) evsC10).1.activations_done = 1 := by
  refine ⟨rfl, rfl, ?_, rfl, rfl, rfl⟩
  simp [clear_logs, appendLogs]

end Phantom
